import Mathlib

/-!
Shallow embedding of the URL-shortening service (Express/Mongoose backend,
`src/unnamed/part_000`).

The Mongo collection of `Url` documents is modelled as a list of records; the
store operations used by the handlers (`Url.findOne {originalUrl}`,
`Url.findOne {shortUrl}`, `newUrl.save()` under the unique index on
`shortUrl`, `doc.save()` after `accessCount += 1`, `Url.find().sort(...)
.skip(...).limit(...)`, `Url.countDocuments()`) are modelled as list
operations.  The `shortid.generate()` collision-resistant generator is
modelled as a function from the attempt number to the candidate code.
Timestamps (`Date.now`) are naturals supplied by the caller.

Each HTTP handler becomes a function from the store (and its inputs) to an
outcome plus the store after the call; the outcome constructors mirror the
handler's distinct JSON responses and their status codes.  Handlers `await`
the store between operations, so where a claim concerns what can happen
between two store operations of one request, a two-snapshot variant of the
handler makes the store state seen by each operation explicit.
-/

namespace UrlShortener

/-- A `Url` document (the Mongoose schema at lines 26-50 of the source):
`originalUrl`, `shortUrl` (unique index), `createdAt`, `accessCount`
(default 0). -/
structure UrlRecord where
  originalUrl : String
  shortUrl : String
  createdAt : Nat
  accessCount : Nat
deriving DecidableEq, Repr

/-- The Mongo collection, in natural order. -/
abbrev Store := List UrlRecord

/-- A JavaScript line terminator, which `.` in a regex does not match. -/
def isLineTerminator (c : Char) : Bool :=
  c == '\n' || c == '\r' || c == ' ' || c == ' '

/-- The regex test from the handlers on a list of characters:
`^https?:\/\/.+` means the string starts with `http`, an optional `s`,
then `://`, then at least one non-line-terminator character. -/
def urlPatternMatchChars : List Char → Bool
  | 'h' :: 't' :: 't' :: 'p' :: rest =>
    match rest with
    | ':' :: '/' :: '/' :: c :: _ => !(isLineTerminator c)
    | 's' :: ':' :: '/' :: '/' :: c :: _ => !(isLineTerminator c)
    | _ => false
  | _ => false

/-- `/^https?:\/\/.+/.test s` (source line 89 and the schema validator). -/
def urlPatternMatch (s : String) : Bool :=
  urlPatternMatchChars s.data

/-- `Url.findOne { originalUrl }` (source line 97). -/
def findByOriginalUrl (s : Store) (u : String) : Option UrlRecord :=
  s.find? (fun r => r.originalUrl == u)

/-- `Url.findOne { shortUrl }` (source lines 116, 164, 202). -/
def findByShortUrl (s : Store) (c : String) : Option UrlRecord :=
  s.find? (fun r => r.shortUrl == c)

/-- `newUrl.save()` under the unique index on `shortUrl`: the insert is
rejected (Mongo duplicate-key error) when some document already carries the
code, otherwise the document is appended. -/
def insertUnique (s : Store) (r : UrlRecord) : Option Store :=
  if (findByShortUrl s r.shortUrl).isSome then none else some (s ++ [r])

/-- The `while (!isUnique && attempts < maxAttempts)` loop of `/shorten`
(source lines 109-121): at each attempt the generator is called and the
candidate is checked against the store; the first free candidate is kept.
`attempt` is the current attempt index, the second argument the number of
attempts left. -/
def genLoopAux (s : Store) (gen : Nat → String) (attempt : Nat) : Nat → Option String
  | 0 => none
  | fuel + 1 =>
    let code := gen attempt
    if (findByShortUrl s code).isSome then genLoopAux s gen (attempt + 1) fuel
    else some code

/-- The generation loop with `maxAttempts = 10` (source line 112). -/
def genLoop (s : Store) (gen : Nat → String) : Option String :=
  genLoopAux s gen 0 10

/-- The distinct responses of the `/shorten` handler. -/
inductive ShortenOutcome where
  /-- 201, `URL shortened successfully` (lines 136-142). -/
  | created (r : UrlRecord)
  /-- 200, `URL already shortened` (lines 100-105). -/
  | alreadyShortened (r : UrlRecord)
  /-- 400, `originalUrl is required in request body` (lines 83-85). -/
  | missingOriginalUrl
  /-- 400, `Invalid URL format` (lines 91-93). -/
  | invalidUrlFormat
  /-- 500, `Failed to generate unique short URL` (lines 125-127). -/
  | codeExhaustion
  /-- 500, the catch-all `Internal server error while shortening URL`
  (lines 146-148), reached when an awaited store operation throws. -/
  | internalError
deriving DecidableEq, Repr

/-- The HTTP status the `/shorten` handler attaches to each outcome. -/
def shortenStatus : ShortenOutcome → Nat
  | .created _ => 201
  | .alreadyShortened _ => 200
  | .missingOriginalUrl => 400
  | .invalidUrlFormat => 400
  | .codeExhaustion => 500
  | .internalError => 500

/-- The `/shorten` handler (source lines 77-150), with the store state made
explicit at its two kinds of store operations: `sCheck` is the state the
lookups of the check phase (`findOne` by `originalUrl`, the generation
loop's `findOne`s by `shortUrl`) run against, and `sSave` the state the
final `newUrl.save()` runs against.  The handler `await`s between these
operations, so under concurrent requests the two states can differ; a
purely sequential call is `shorten`, where they coincide.  A duplicate-key
rejection from `save` is an exception, caught by the handler's catch-all,
which answers 500 (`internalError`); the loop is not re-entered. -/
def shortenRacy (sCheck sSave : Store) (gen : Nat → String) (now : Nat)
    (originalUrl : String) : ShortenOutcome × Store :=
  if originalUrl = "" then (.missingOriginalUrl, sSave)
  else if !(urlPatternMatch originalUrl) then (.invalidUrlFormat, sSave)
  else
    match findByOriginalUrl sCheck originalUrl with
    | some r => (.alreadyShortened r, sSave)
    | none =>
      match genLoop sCheck gen with
      | none => (.codeExhaustion, sSave)
      | some code =>
        match insertUnique sSave ⟨originalUrl, code, now, 0⟩ with
        | none => (.internalError, sSave)
        | some s' => (.created ⟨originalUrl, code, now, 0⟩, s')

/-- The `/shorten` handler run without interference: every store operation
sees the same collection. -/
def shorten (s : Store) (gen : Nat → String) (now : Nat) (originalUrl : String) :
    ShortenOutcome × Store :=
  shortenRacy s s gen now originalUrl

/-- The outcomes of `/shorten` that are client-fault validation failures
(the spec's `ValidationError`): the missing-body-field 400 and the
bad-format 400. -/
def isValidationOutcome : ShortenOutcome → Bool
  | .missingOriginalUrl => true
  | .invalidUrlFormat => true
  | _ => false

/-- The outcomes of `/shorten` that are failures (no record returned). -/
def isShortenError : ShortenOutcome → Bool
  | .created _ => false
  | .alreadyShortened _ => false
  | _ => true

/-- The distinct responses of the `/redirect` handler. -/
inductive ResolveOutcome where
  /-- 200, `{redirectUrl, accessCount}` with the post-increment count
  (lines 216-219). -/
  | redirect (redirectUrl : String) (accessCount : Nat)
  /-- 400, `shortUrl is required in request body` (lines 197-199). -/
  | missingShortUrl
  /-- 404, `Short URL not found` (lines 205-207). -/
  | notFound
deriving DecidableEq, Repr

/-- The HTTP status the `/redirect` handler attaches to each outcome. -/
def resolveStatus : ResolveOutcome → Nat
  | .redirect _ _ => 200
  | .missingShortUrl => 400
  | .notFound => 404

/-- `doc.save()` after `doc.accessCount` was set to `n` in memory: the
documents matching the code get `accessCount := n` written back. -/
def storeWriteCount (s : Store) (c : String) (n : Nat) : Store :=
  s.map (fun r => if r.shortUrl == c then { r with accessCount := n } else r)

/-- The `/redirect` handler (source lines 191-227) run without
interference: the empty-body check (`!shortUrl` is truthy for the empty
string), `findOne` by code, then `accessCount += 1` followed by `save()`,
answering the original URL and the post-increment count. -/
def resolve (s : Store) (c : String) : ResolveOutcome × Store :=
  if c = "" then (.missingShortUrl, s)
  else
    match findByShortUrl s c with
    | none => (.notFound, s)
    | some r =>
      (.redirect r.originalUrl (r.accessCount + 1),
        storeWriteCount s c (r.accessCount + 1))

/-- `K` sequential `/redirect` calls for the code `c`, returning the final
store. -/
def resolveIter (s : Store) (c : String) : Nat → Store
  | 0 => s
  | k + 1 => (resolve (resolveIter s c k) c).2

/-- Two concurrent `/redirect` requests for the same code under the
interleaving where both `findOne`s complete before either `save()` runs
(the handler suspends at each `await`, so this schedule is reachable):
both requests read the same document, both set `accessCount` to the same
incremented value in memory, and both writes land.  Returns the two
responses and the final store. -/
def resolveRaceRRWW (s : Store) (c : String) :
    ResolveOutcome × ResolveOutcome × Store :=
  if c = "" then (.missingShortUrl, .missingShortUrl, s)
  else
    match findByShortUrl s c with
    | none => (.notFound, .notFound, s)
    | some r =>
      let n := r.accessCount + 1
      (.redirect r.originalUrl n, .redirect r.originalUrl n,
        storeWriteCount (storeWriteCount s c n) c n)

/-- The distinct responses of the `/url-info` handler. -/
inductive LookupOutcome where
  /-- 200, the record's fields (lines 174-180), `accessCount` included. -/
  | info (r : UrlRecord)
  /-- 400, `shortUrl is required in request body` (lines 159-161). -/
  | missingShortUrl
  /-- 404, `Short URL not found` (lines 167-169). -/
  | notFound
deriving DecidableEq, Repr

/-- The HTTP status the `/url-info` handler attaches to each outcome. -/
def lookupStatus : LookupOutcome → Nat
  | .info _ => 200
  | .missingShortUrl => 400
  | .notFound => 404

/-- The `/url-info` handler (source lines 153-188): empty-body check,
`findOne` by code, answer the record's fields.  No store operation in the
handler writes. -/
def lookup (s : Store) (c : String) : LookupOutcome × Store :=
  if c = "" then (.missingShortUrl, s)
  else
    match findByShortUrl s c with
    | none => (.notFound, s)
    | some r => (.info r, s)

/-- The order `.sort({ createdAt: -1 })` sorts by: most recent first. -/
def createdAtDescOrder (a b : UrlRecord) : Prop :=
  b.createdAt ≤ a.createdAt

instance : DecidableRel createdAtDescOrder :=
  fun a b => Nat.decLe b.createdAt a.createdAt

instance : IsTotal UrlRecord createdAtDescOrder :=
  ⟨fun a b => (Nat.le_total a.createdAt b.createdAt).symm⟩

instance : IsTrans UrlRecord createdAtDescOrder :=
  ⟨fun _ _ _ hab hbc => Nat.le_trans hbc hab⟩

/-- `Url.find().sort({ createdAt: -1 })`, modelled as a sort of the
collection by descending `createdAt`. -/
def sortByCreatedAtDesc (s : Store) : List UrlRecord :=
  List.insertionSort createdAtDescOrder s

/-- The `/urls` handler (source lines 230-264) for positive integer `page`
and `limit`: `skip = (page - 1) * limit`, then
`find().sort({createdAt:-1}).skip(skip).limit(limit)`, and
`Url.countDocuments()` for the total.  Returns the page of records and
`totalUrls`. -/
def listUrls (s : Store) (page limit : Nat) : List UrlRecord × Nat :=
  let skip := (page - 1) * limit
  (((sortByCreatedAtDesc s).drop skip).take limit, s.length)

end UrlShortener

namespace UrlShortener

/-! ### Helper lemmas -/

lemma urlPatternMatch_ne_empty {u : String} (h : urlPatternMatch u = true) :
    ¬ (u = "") := by
  intro he
  subst he
  exact absurd h (by decide)

lemma shorten_eq_racy (s : Store) (gen : Nat → String) (now : Nat) (u : String) :
    shorten s gen now u = shortenRacy s s gen now u := rfl

lemma genLoopAux_none (s : Store) (gen : Nat → String) :
    ∀ fuel attempt,
      (∀ j, j < fuel → (findByShortUrl s (gen (attempt + j))).isSome = true) →
      genLoopAux s gen attempt fuel = none
  | 0, _, _ => rfl
  | fuel + 1, attempt, h => by
    have h0 : (findByShortUrl s (gen attempt)).isSome = true := by
      simpa using h 0 (Nat.succ_pos fuel)
    have ih := genLoopAux_none s gen fuel (attempt + 1) (fun j hj => by
      have e : attempt + (j + 1) = (attempt + 1) + j := by omega
      have := h (j + 1) (Nat.succ_lt_succ hj)
      rwa [e] at this)
    simp [genLoopAux, h0, ih]

lemma genLoop_none (s : Store) (gen : Nat → String)
    (h : ∀ i, i < 10 → (findByShortUrl s (gen i)).isSome = true) :
    genLoop s gen = none :=
  genLoopAux_none s gen 10 0 (fun j hj => by simpa using h j hj)

lemma findByOriginalUrl_append_self (s : Store) (u : String) (r : UrlRecord)
    (hnone : findByOriginalUrl s u = none) (hr : r.originalUrl = u) :
    findByOriginalUrl (s ++ [r]) u = some r := by
  unfold findByOriginalUrl at *
  rw [List.find?_append, hnone]
  simp [List.find?, hr]

lemma find?_map_write (l : List UrlRecord) (c : String) (n : Nat) (r : UrlRecord)
    (h : l.find? (fun x => x.shortUrl == c) = some r) :
    (l.map (fun x => if x.shortUrl == c then { x with accessCount := n } else x)).find?
        (fun x => x.shortUrl == c) = some { r with accessCount := n } := by
  have hr : r.shortUrl = c := by simpa using List.find?_some h
  have hpf : ((fun x : UrlRecord => x.shortUrl == c) ∘
      (fun x => if x.shortUrl == c then { x with accessCount := n } else x))
      = (fun x : UrlRecord => x.shortUrl == c) := by
    funext x
    by_cases hx : x.shortUrl = c <;> simp [hx]
  rw [List.find?_map, hpf, h]
  simp [hr]

lemma findByShortUrl_storeWriteCount (s : Store) (c : String) (n : Nat)
    (r : UrlRecord) (h : findByShortUrl s c = some r) :
    findByShortUrl (storeWriteCount s c n) c = some { r with accessCount := n } :=
  find?_map_write s c n r h

lemma resolveIter_find (s : Store) (c : String) (r : UrlRecord) (hc : ¬ (c = ""))
    (h : findByShortUrl s c = some r) :
    ∀ K, findByShortUrl (resolveIter s c K) c
      = some { r with accessCount := r.accessCount + K }
  | 0 => by simpa using h
  | K + 1 => by
    have ih := resolveIter_find s c r hc h K
    show findByShortUrl (resolve (resolveIter s c K) c).2 c = _
    unfold resolve
    rw [if_neg hc, ih]
    have := findByShortUrl_storeWriteCount (resolveIter s c K) c
      ((r.accessCount + K) + 1) { r with accessCount := r.accessCount + K } ih
    simpa [Nat.add_assoc] using this

/-! ### Claims -/

/-- C6: the `/url-info` handler (`lookup`) is read-only: for every store and
every short code, the store after the call is exactly the store before it,
so no field of any record — `accessCount` included — is mutated. -/
theorem lookup_read_only (s : Store) (c : String) : (lookup s c).2 = s := by
  unfold lookup
  cases hc : decide (c = "") with
  | true =>
    have : c = "" := of_decide_eq_true hc
    simp [this]
  | false =>
    have : ¬ (c = "") := of_decide_eq_false hc
    rw [if_neg this]
    cases hf : findByShortUrl s c <;> simp

/-- C10: on the empty-string code, both `/redirect` (`resolve`) and
`/url-info` (`lookup`) answer the missing-input validation failure with
status 400 (`shortUrl is required in request body`), not the 404
`NotFoundError`, because `!shortUrl` is truthy for the empty string and the
handlers return before any store lookup. -/
theorem empty_code_missing_input (s : Store) :
    (resolve s "").1 = ResolveOutcome.missingShortUrl ∧
    (lookup s "").1 = LookupOutcome.missingShortUrl ∧
    resolveStatus (resolve s "").1 = 400 ∧
    lookupStatus (lookup s "").1 = 400 ∧
    (resolve s "").1 ≠ ResolveOutcome.notFound ∧
    (lookup s "").1 ≠ LookupOutcome.notFound := by
  simp [resolve, lookup, resolveStatus, lookupStatus]

/-- C8: `shorten` fails with a validation error (one of the two 400
responses: missing `originalUrl`, invalid format) exactly when the
submitted URL is empty or fails the `^https?://` pattern; since the empty
string never matches the pattern, that condition is equivalent to the
pattern failing. -/
theorem shorten_validation_iff (s : Store) (gen : Nat → String) (now : Nat)
    (u : String) :
    isValidationOutcome (shorten s gen now u).1 = true ↔
      (u = "" ∨ urlPatternMatch u = false) := by
  unfold shorten shortenRacy
  by_cases h0 : u = ""
  · simp [h0, isValidationOutcome]
  · rw [if_neg h0]
    cases h1 : urlPatternMatch u with
    | false => simp [h0, isValidationOutcome]
    | true =>
      simp only [h1, Bool.not_true, Bool.false_eq_true, if_false]
      cases hf : findByOriginalUrl s u with
      | some r => simp [h0, isValidationOutcome]
      | none =>
        cases hg : genLoop s gen with
        | none => simp [h0, isValidationOutcome]
        | some code =>
          cases hi : insertUnique s ⟨u, code, now, 0⟩ <;>
            simp [hi, h0, isValidationOutcome]

/-- C8 witness: `shorten("ftp://x.com")` is rejected as a validation
failure on any store. -/
theorem shorten_validation_iff_witness :
    isValidationOutcome (shorten [] (fun _ => "abc") 0 "ftp://x.com").1 = true :=
  (shorten_validation_iff [] (fun _ => "abc") 0 "ftp://x.com").mpr
    (Or.inr (by decide))

/-- C4: when every candidate the generator produces on the first 10 attempts
is already in use, `shorten` stops after the configured `maxAttempts = 10`
(only those 10 candidates are ever consulted) and fails with the
code-exhaustion response, whose status 500 is a server-side failure, not a
client error; the store is left unchanged. -/
theorem shorten_code_exhaustion (s : Store) (gen : Nat → String) (now : Nat)
    (u : String) (hu : urlPatternMatch u = true)
    (hfind : findByOriginalUrl s u = none)
    (hused : ∀ i, i < 10 → (findByShortUrl s (gen i)).isSome = true) :
    shorten s gen now u = (ShortenOutcome.codeExhaustion, s) ∧
    shortenStatus (shorten s gen now u).1 = 500 := by
  have hne := urlPatternMatch_ne_empty hu
  have hloop := genLoop_none s gen hused
  have h1 : shorten s gen now u = (ShortenOutcome.codeExhaustion, s) := by
    unfold shorten shortenRacy
    rw [if_neg hne, hu]
    simp [hfind, hloop]
  exact ⟨h1, by rw [h1]; rfl⟩

/-- C4 witness: a generator stuck on the used code `z` drives `shorten`
into the 500 code-exhaustion failure. -/
theorem shorten_code_exhaustion_witness :
    shorten [⟨"http://x.com", "z", 0, 0⟩] (fun _ => "z") 3 "http://a.com"
      = (ShortenOutcome.codeExhaustion, [⟨"http://x.com", "z", 0, 0⟩]) :=
  (shorten_code_exhaustion [⟨"http://x.com", "z", 0, 0⟩] (fun _ => "z") 3
    "http://a.com" (by decide) (by decide) (fun i _ => by
      show (findByShortUrl [⟨"http://x.com", "z", 0, 0⟩] "z").isSome = true
      decide)).1

/-- C9: error atomicity of `/shorten`: whenever the handler fails (missing
or invalid URL, retry-budget exhaustion, or the internal error raised by a
rejected insert), the store after the call is exactly the store the save
phase saw — no record is inserted and no record is changed.  `shorten s`
is `shortenRacy s s`, so the sequential case is included. -/
theorem shorten_error_leaves_store (sCheck sSave : Store) (gen : Nat → String)
    (now : Nat) (u : String)
    (h : isShortenError (shortenRacy sCheck sSave gen now u).1 = true) :
    (shortenRacy sCheck sSave gen now u).2 = sSave := by
  unfold shortenRacy at h ⊢
  by_cases h0 : u = ""
  · simp [h0]
  · rw [if_neg h0] at h ⊢
    cases h1 : urlPatternMatch u with
    | false => simp [h1]
    | true =>
      simp only [h1, Bool.not_true, Bool.false_eq_true, if_false] at h ⊢
      cases hf : findByOriginalUrl sCheck u with
      | some r => simp
      | none =>
        cases hg : genLoop sCheck gen with
        | none => simp
        | some code =>
          cases hi : insertUnique sSave ⟨u, code, now, 0⟩ with
          | none => simp [hi]
          | some s' => simp [hf, hg, hi, isShortenError] at h

/-- C9 witness: the missing-URL failure leaves an empty store empty. -/
theorem shorten_error_leaves_store_witness :
    isShortenError (shortenRacy [] [] (fun _ => "abc") 0 "").1 = true ∧
    (shortenRacy [] [] (fun _ => "abc") 0 "").2 = [] :=
  ⟨by decide, shorten_error_leaves_store [] [] (fun _ => "abc") 0 "" (by decide)⟩

end UrlShortener

namespace UrlShortener

/-- C3: idempotent create.  When a first `shorten(u)` creates a record `r`
(so `u` passed validation and was not yet shortened), the store has grown by
exactly that one record, and a second sequential `shorten(u)` — whatever
codes its generator would produce and whatever its timestamp — answers the
200 `URL already shortened` response carrying the very same record `r`
(hence the same `shortUrl`), minting no new code and leaving the store
untouched. -/
theorem shorten_idempotent (s s' : Store) (gen gen' : Nat → String)
    (now now' : Nat) (u : String) (r : UrlRecord)
    (h : shorten s gen now u = (ShortenOutcome.created r, s')) :
    shorten s' gen' now' u = (ShortenOutcome.alreadyShortened r, s') ∧
    s' = s ++ [r] := by
  unfold shorten shortenRacy at h
  by_cases h0 : u = ""
  · rw [if_pos h0] at h
    exact absurd h (by simp)
  · rw [if_neg h0] at h
    cases h1 : urlPatternMatch u with
    | false =>
      rw [h1] at h
      simp at h
    | true =>
      simp only [h1, Bool.not_true, Bool.false_eq_true, if_false] at h
      cases hf : findByOriginalUrl s u with
      | some r0 => simp [hf] at h
      | none =>
        cases hg : genLoop s gen with
        | none => simp [hf, hg] at h
        | some code =>
          cases hi : insertUnique s ⟨u, code, now, 0⟩ with
          | none => simp [hf, hg, hi] at h
          | some s'' =>
            simp only [hf, hg] at h
            simp [hi] at h
            obtain ⟨hr, hs⟩ := h
            unfold insertUnique at hi
            by_cases hdup :
                (findByShortUrl s (⟨u, code, now, 0⟩ : UrlRecord).shortUrl).isSome
            · rw [if_pos hdup] at hi
              cases hi
            · rw [if_neg hdup] at hi
              injection hi with hi
              subst hr
              subst hs
              subst hi
              constructor
              · unfold shorten shortenRacy
                rw [if_neg h0]
                simp only [h1, Bool.not_true, Bool.false_eq_true, if_false]
                have happ := findByOriginalUrl_append_self s u
                  ⟨u, code, now, 0⟩ hf rfl
                simp [happ]
              · rfl

/-- C3 witness: shortening `http://a.com` on the empty store and then
shortening it again returns the same record and leaves the one-record
store unchanged. -/
theorem shorten_idempotent_witness :
    shorten [⟨"http://a.com", "abc", 5, 0⟩] (fun _ => "xyz") 9 "http://a.com"
      = (ShortenOutcome.alreadyShortened ⟨"http://a.com", "abc", 5, 0⟩,
         [⟨"http://a.com", "abc", 5, 0⟩]) :=
  (shorten_idempotent [] [⟨"http://a.com", "abc", 5, 0⟩] (fun _ => "abc")
    (fun _ => "xyz") 5 9 "http://a.com" ⟨"http://a.com", "abc", 5, 0⟩
    (by decide)).1

/-- C5: every successful `/redirect` increments the matched record's
`accessCount` by exactly 1, persists it (the store after the call carries
the incremented record), and answers the post-increment count; iterating,
after `K` sequential resolutions the persisted and looked-up count is the
initial count plus `K` (so `K` for a fresh record), while `lookup` reports
it without changing it. -/
theorem resolve_increments (s : Store) (c : String) (r : UrlRecord)
    (hc : ¬ (c = "")) (h : findByShortUrl s c = some r) :
    resolve s c = (ResolveOutcome.redirect r.originalUrl (r.accessCount + 1),
      storeWriteCount s c (r.accessCount + 1)) ∧
    findByShortUrl (resolve s c).2 c
      = some { r with accessCount := r.accessCount + 1 } ∧
    (∀ K, findByShortUrl (resolveIter s c K) c
      = some { r with accessCount := r.accessCount + K }) ∧
    (∀ K, (lookup (resolveIter s c K) c).1
      = LookupOutcome.info { r with accessCount := r.accessCount + K }) := by
  have hres : resolve s c
      = (ResolveOutcome.redirect r.originalUrl (r.accessCount + 1),
         storeWriteCount s c (r.accessCount + 1)) := by
    unfold resolve
    rw [if_neg hc, h]
  refine ⟨hres, ?_, resolveIter_find s c r hc h, ?_⟩
  · rw [hres]
    exact findByShortUrl_storeWriteCount s c (r.accessCount + 1) r h
  · intro K
    have hK := resolveIter_find s c r hc h K
    unfold lookup
    rw [if_neg hc, hK]

/-- C5 witness: three sequential resolutions of `c1` starting from a fresh
record leave `accessCount = 3`, which `lookup` reports. -/
theorem resolve_increments_witness :
    resolve [⟨"http://a.com", "c1", 7, 0⟩] "c1"
      = (ResolveOutcome.redirect "http://a.com" 1,
         [⟨"http://a.com", "c1", 7, 1⟩]) ∧
    findByShortUrl (resolveIter [⟨"http://a.com", "c1", 7, 0⟩] "c1" 3) "c1"
      = some ⟨"http://a.com", "c1", 7, 3⟩ ∧
    (lookup (resolveIter [⟨"http://a.com", "c1", 7, 0⟩] "c1" 3) "c1").1
      = LookupOutcome.info ⟨"http://a.com", "c1", 7, 3⟩ := by
  have h := resolve_increments [⟨"http://a.com", "c1", 7, 0⟩] "c1"
    ⟨"http://a.com", "c1", 7, 0⟩ (by decide) (by decide)
  refine ⟨?_, h.2.2.1 3, h.2.2.2 3⟩
  rw [h.1]
  decide

/-- C7: for positive `page` and `limit`, the `/urls` handler returns the
window `skip = (page - 1) * limit` of the collection sorted by `createdAt`
descending; the returned sequence is sorted most-recent-first; a page whose
offset reaches past the collection yields the empty sequence rather than an
error; and the returned total is the count of all records, independent of
the window. -/
theorem listUrls_spec (s : Store) (page limit : Nat)
    (hp : 0 < page) (hl : 0 < limit) :
    (listUrls s page limit).1
      = ((sortByCreatedAtDesc s).drop ((page - 1) * limit)).take limit ∧
    List.Sorted createdAtDescOrder (listUrls s page limit).1 ∧
    (s.length ≤ (page - 1) * limit → (listUrls s page limit).1 = []) ∧
    (listUrls s page limit).2 = s.length := by
  refine ⟨rfl, ?_, ?_, rfl⟩
  · have hsorted : List.Sorted createdAtDescOrder (sortByCreatedAtDesc s) :=
      List.sorted_insertionSort createdAtDescOrder s
    exact List.Pairwise.sublist
      ((List.take_sublist _ _).trans (List.drop_sublist _ _)) hsorted
  · intro hle
    have hlen : (sortByCreatedAtDesc s).length = s.length :=
      (List.perm_insertionSort createdAtDescOrder s).length_eq
    have hdrop : (sortByCreatedAtDesc s).drop ((page - 1) * limit) = [] :=
      List.drop_eq_nil_of_le (by rw [hlen]; exact hle)
    show ((sortByCreatedAtDesc s).drop ((page - 1) * limit)).take limit = []
    rw [hdrop]
    exact List.take_nil

/-- C7 witness: with 3 records, `list(page=4, limit=10)` is empty and the
total stays 3; `list(page=1, limit=2)` returns the two most recent. -/
theorem listUrls_spec_witness :
    (listUrls [⟨"http://a.com", "a", 1, 0⟩, ⟨"http://b.com", "b", 3, 0⟩,
        ⟨"http://c.com", "c", 2, 0⟩] 4 10).1 = [] ∧
    (listUrls [⟨"http://a.com", "a", 1, 0⟩, ⟨"http://b.com", "b", 3, 0⟩,
        ⟨"http://c.com", "c", 2, 0⟩] 4 10).2 = 3 := by
  have h := listUrls_spec [⟨"http://a.com", "a", 1, 0⟩,
    ⟨"http://b.com", "b", 3, 0⟩, ⟨"http://c.com", "c", 2, 0⟩] 4 10
    (by decide) (by decide)
  exact ⟨h.2.2.1 (by decide), h.2.2.2⟩

/-- C1 counterexample: the claim says a duplicate-code conflict at insert
time is retried inside `shorten` and never surfaces to the caller.  In the
code it does surface: with an empty store at check time, a store holding
the code `abc` at save time (the state a racing winner committed), and a
generator producing `abc`, the handler's `save` throws the duplicate-key
error, the catch-all answers the 500 internal error, and no retry occurs —
the call ends in an error outcome. -/
theorem shorten_duplicate_insert_counterexample :
    shortenRacy [] [⟨"http://other.com", "abc", 0, 0⟩] (fun _ => "abc") 1
        "http://a.com"
      = (ShortenOutcome.internalError, [⟨"http://other.com", "abc", 0, 0⟩]) ∧
    isShortenError ShortenOutcome.internalError = true ∧
    shortenStatus ShortenOutcome.internalError = 500 := by
  decide

/-- C1 (amended): when the `newUrl.save()` of `/shorten` runs against a
store that already holds the chosen code (the duplicate-code race), the
handler does NOT loop back to generate a new candidate: the duplicate-key
rejection propagates to the catch-all and the caller receives the 500
internal-error outcome, the store staying as the save phase found it. -/
theorem shorten_duplicate_insert_errors (sCheck sSave : Store)
    (gen : Nat → String) (now : Nat) (u code : String)
    (hu : urlPatternMatch u = true)
    (hfind : findByOriginalUrl sCheck u = none)
    (hg : genLoop sCheck gen = some code)
    (hdup : (findByShortUrl sSave code).isSome = true) :
    shortenRacy sCheck sSave gen now u = (ShortenOutcome.internalError, sSave) ∧
    shortenStatus (shortenRacy sCheck sSave gen now u).1 = 500 := by
  have hne := urlPatternMatch_ne_empty hu
  have h1 : shortenRacy sCheck sSave gen now u
      = (ShortenOutcome.internalError, sSave) := by
    unfold shortenRacy
    rw [if_neg hne]
    simp only [hu, Bool.not_true, Bool.false_eq_true, if_false]
    rw [hfind, hg]
    simp [insertUnique, hdup]
  exact ⟨h1, by rw [h1]; rfl⟩

/-- C1 witness: concrete race instance for the amended statement. -/
theorem shorten_duplicate_insert_errors_witness :
    shortenRacy [] [⟨"http://other.com", "abc", 0, 0⟩] (fun _ => "abc") 1
        "http://b.com"
      = (ShortenOutcome.internalError, [⟨"http://other.com", "abc", 0, 0⟩]) :=
  (shorten_duplicate_insert_errors [] [⟨"http://other.com", "abc", 0, 0⟩]
    (fun _ => "abc") 1 "http://b.com" "abc" (by decide) (by decide)
    (by decide) (by decide)).1

/-- C2 counterexample: the claim says two simultaneous resolutions leave
`accessCount` incremented by exactly 2, never 1.  The handler's increment
is `findOne` + `accessCount += 1` + `save()`, a read-modify-write; under
the reachable schedule where both `findOne`s run before either `save`,
both calls succeed with count 1 and the final persisted count is 1, not
2 — one update is lost. -/
theorem resolve_race_counterexample :
    resolveRaceRRWW [⟨"http://a.com", "c1", 5, 0⟩] "c1"
      = (ResolveOutcome.redirect "http://a.com" 1,
         ResolveOutcome.redirect "http://a.com" 1,
         [⟨"http://a.com", "c1", 5, 1⟩]) ∧
    ¬ (findByShortUrl (resolveRaceRRWW [⟨"http://a.com", "c1", 5, 0⟩] "c1").2.2
        "c1" = some ⟨"http://a.com", "c1", 5, 2⟩) := by
  decide

/-- C2 (amended): two simultaneous `resolve(c)` calls both succeed, but the
increment is not atomic: under the read-read-write-write interleaving the
final `accessCount` reflects only one of the two increments (a lost
update), while only the serialized execution (`resolveIter s c 2`) yields
the claimed total of two increments. -/
theorem resolve_race_lost_update (s : Store) (c : String) (r : UrlRecord)
    (hc : ¬ (c = "")) (h : findByShortUrl s c = some r) :
    (resolveRaceRRWW s c).1
      = ResolveOutcome.redirect r.originalUrl (r.accessCount + 1) ∧
    (resolveRaceRRWW s c).2.1
      = ResolveOutcome.redirect r.originalUrl (r.accessCount + 1) ∧
    findByShortUrl (resolveRaceRRWW s c).2.2 c
      = some { r with accessCount := r.accessCount + 1 } ∧
    findByShortUrl (resolveIter s c 2) c
      = some { r with accessCount := r.accessCount + 2 } := by
  have hrace : resolveRaceRRWW s c
      = (ResolveOutcome.redirect r.originalUrl (r.accessCount + 1),
         ResolveOutcome.redirect r.originalUrl (r.accessCount + 1),
         storeWriteCount (storeWriteCount s c (r.accessCount + 1)) c
           (r.accessCount + 1)) := by
    unfold resolveRaceRRWW
    rw [if_neg hc, h]
  have h1 := findByShortUrl_storeWriteCount s c (r.accessCount + 1) r h
  have h2 := findByShortUrl_storeWriteCount
    (storeWriteCount s c (r.accessCount + 1)) c (r.accessCount + 1)
    { r with accessCount := r.accessCount + 1 } h1
  refine ⟨by rw [hrace], by rw [hrace], ?_, resolveIter_find s c r hc h 2⟩
  rw [hrace]
  exact h2

/-- C2 witness: concrete instance of the amended statement — the racy
schedule persists count 1, the serialized one count 2. -/
theorem resolve_race_lost_update_witness :
    (resolveRaceRRWW [⟨"http://a.com", "c1", 5, 0⟩] "c1").1
      = ResolveOutcome.redirect "http://a.com" 1 ∧
    findByShortUrl (resolveRaceRRWW [⟨"http://a.com", "c1", 5, 0⟩] "c1").2.2
        "c1" = some ⟨"http://a.com", "c1", 5, 1⟩ ∧
    findByShortUrl (resolveIter [⟨"http://a.com", "c1", 5, 0⟩] "c1" 2) "c1"
      = some ⟨"http://a.com", "c1", 5, 2⟩ := by
  have h := resolve_race_lost_update [⟨"http://a.com", "c1", 5, 0⟩] "c1"
    ⟨"http://a.com", "c1", 5, 0⟩ (by decide) (by decide)
  exact ⟨h.1, h.2.2.1, h.2.2.2⟩

end UrlShortener
